import Mathlib

/-!
Verification of the api.video → S3 transfer script (the streaming variant
with pagination, retry, failure ledger and verify pass).

The JavaScript source is embedded shallowly:
* pure string manipulation (title sanitization, key derivation) becomes
  Lean functions on `String` / `List Char`;
* network effects (catalog detail fetch, S3 head / upload outcomes,
  wall-clock timestamps) become oracle functions carried in an `Env`
  record, and the side effects the script performs become an explicit
  trace of `Event`s;
* the ledger file `failed-videos.json` is modelled at the JSON-value
  level: its content is either a well-formed array of entries or corrupt
  (JSON.stringify / JSON.parse round-trip on these plain records is the
  identity, so the byte-level serialization is abstracted).
-/

/-- A catalog record as the listing returns it: `videoId` and `title`.
A missing / undefined title is modelled as the empty string, which is
exactly how the script's `video.title || video.videoId` fallback treats
it (both `undefined` and `""` are falsy). -/
structure Video where
  videoId : String
  title : String
deriving DecidableEq, Repr

/-- The set matched by JavaScript's regex class `\s` (also the set removed
by `String.prototype.trim`): tab, LF, VT, FF, CR, space, NBSP, and the
Unicode space separators / line terminators / BOM. -/
def isJsSpace (c : Char) : Bool :=
  c.val = 0x09 || c.val = 0x0A || c.val = 0x0B || c.val = 0x0C || c.val = 0x0D ||
  c.val = 0x20 || c.val = 0xA0 || c.val = 0x1680 ||
  (0x2000 ≤ c.val && c.val ≤ 0x200A) ||
  c.val = 0x2028 || c.val = 0x2029 || c.val = 0x202F || c.val = 0x205F ||
  c.val = 0x3000 || c.val = 0xFEFF

/-- Characters kept by `.replace(/[^a-zA-Z0-9\-\s.]/g, '')`: ASCII
letters, digits, dash, any `\s` character, and dot. -/
def isAllowedChar (c : Char) : Bool :=
  (0x61 ≤ c.val && c.val ≤ 0x7A) ||   -- a-z
  (0x41 ≤ c.val && c.val ≤ 0x5A) ||   -- A-Z
  (0x30 ≤ c.val && c.val ≤ 0x39) ||   -- 0-9
  c.val = 0x2D ||                      -- dash
  isJsSpace c ||                       -- \s
  c.val = 0x2E                         -- dot

/-- `.replace(/\s+/g, ' ')`: each maximal run of `\s` characters becomes a
single ASCII space.  The boolean argument records whether the previous
character belonged to a whitespace run. -/
def collapseWsAux : Bool → List Char → List Char
  | _, [] => []
  | prevSpace, c :: rest =>
    if isJsSpace c then
      if prevSpace then collapseWsAux true rest
      else ' ' :: collapseWsAux true rest
    else c :: collapseWsAux false rest

/-- `String.prototype.trim`: strip `\s` characters from both ends. -/
def jsTrim (l : List Char) : List Char :=
  ((l.dropWhile isJsSpace).reverse.dropWhile isJsSpace).reverse

namespace TransferPath

/-- The `sanitizeFilename` closure defined inside `transferVideos`
(transfer path): strip disallowed characters, collapse whitespace runs to
one space, trim; an empty result falls back to the video id (`|| video.videoId`). -/
def sanitizeFilename (videoId : String) (title : String) : String :=
  let step1 := title.data.filter isAllowedChar
  let step2 := collapseWsAux false step1
  let step3 := jsTrim step2
  if step3.isEmpty then videoId else String.mk step3

/-- `sanitizeFilename(video.title || video.videoId)` on the transfer path. -/
def safeTitle (v : Video) : String :=
  sanitizeFilename v.videoId (if v.title = "" then v.videoId else v.title)

/-- The destination key built in `transferVideos`:
`api-video-backup/<safeTitle> - <videoId>`. -/
def s3Key (v : Video) : String :=
  "api-video-backup/" ++ safeTitle v ++ " - " ++ v.videoId

end TransferPath

namespace VerifyPath

/-- The `sanitizeFilename` closure defined inside `verifyTransfer`
(verify path); textually a second copy of the transfer-path closure. -/
def sanitizeFilename (videoId : String) (title : String) : String :=
  let step1 := title.data.filter isAllowedChar
  let step2 := collapseWsAux false step1
  let step3 := jsTrim step2
  if step3.isEmpty then videoId else String.mk step3

/-- `sanitizeFilename(video.title || video.videoId)` on the verify path. -/
def safeTitle (v : Video) : String :=
  sanitizeFilename v.videoId (if v.title = "" then v.videoId else v.title)

/-- The expected key computed in `verifyTransfer`:
`api-video-backup/<safeTitle> - <videoId>`. -/
def expectedKey (v : Video) : String :=
  "api-video-backup/" ++ safeTitle v ++ " - " ++ v.videoId

end VerifyPath

/-- The error object handed to the `headObject` callback, when there is
one; only its `code` field is inspected. -/
structure S3Error where
  code : String
deriving DecidableEq, Repr

/-- `checkFileExists`: the `headObject` callback resolves `false` when the
error code is NotFound, `false` again on any other error, and `true` only
when there is no error.  The argument is the error the head request
produced (`none` = success); the function is total, mirroring the JS
promise that only ever resolves, never rejects. -/
def checkFileExists : Option S3Error → Bool
  | some e => if e.code = "NotFound" then false else false
  | none => true

/-- Retry configuration, `MAX_RETRIES = 3`. -/
def MAX_RETRIES : Nat := 3

/-- Retry configuration, `RETRY_DELAY = 5000` milliseconds. -/
def RETRY_DELAY : Nat := 5000

/-- Observable side effects of a run, in order: a detail fetch
(`fetchVideoDetails`), an existence check (`checkFileExists`), one upload
attempt (`streamToS3`), or a `delay(ms)` sleep. -/
inductive Event where
  | detailFetch (videoId : String)
  | existsCheck (key : String)
  | uploadAttempt (key : String) (attempt : Nat)
  | delayed (ms : Nat)
deriving DecidableEq, Repr

/-- What `streamToS3WithRetry` returns (`{success, error?}`), together
with the trace of upload attempts and sleeps it performed. -/
structure RetryOutcome where
  success : Bool
  error : Option String
  events : List Event
deriving DecidableEq, Repr

/-- `streamToS3WithRetry(sourceUrl, s3Key, title, retries)`: try
`streamToS3`; on success return `{success: true}`; on failure, if
`retries < MAX_RETRIES`, sleep `RETRY_DELAY` and recurse with
`retries + 1`, otherwise return `{success: false, error}`.  The oracle
`upload n` gives the outcome of attempt number `n` (`.ok` = commit
acknowledged, `.error msg` = network / status / commit failure). -/
def streamToS3WithRetry (upload : Nat → Except String Unit) (key : String)
    (retries : Nat) : RetryOutcome :=
  match upload retries with
  | .ok _ => { success := true, error := none, events := [.uploadAttempt key retries] }
  | .error e =>
    if h : retries < MAX_RETRIES then
      let rest := streamToS3WithRetry upload key (retries + 1)
      { success := rest.success, error := rest.error,
        events := .uploadAttempt key retries :: .delayed RETRY_DELAY :: rest.events }
    else
      { success := false, error := some e, events := [.uploadAttempt key retries] }
termination_by MAX_RETRIES - retries
decreasing_by simp only [MAX_RETRIES] at h ⊢; omega

/-- One entry of `failed-videos.json`:
`{videoId, title, error, timestamp}`. -/
structure Entry where
  videoId : String
  title : String
  error : String
  timestamp : String
deriving DecidableEq, Repr

/-- The oracles a run interacts with: `detail id` is what
`fetchVideoDetails(id)` produces (`.error` = rejected promise, `.ok url?`
= response whose `assets?.mp4` is `url?`); `head key` is the error, if
any, of the `headObject` call on `key`; `upload id n` is the outcome of
the n-th `streamToS3` attempt for video `id`; `time id` is the
`new Date().toISOString()` timestamp recorded if video `id` fails. -/
structure Env where
  detail : String → Except String (Option String)
  head : String → Option S3Error
  upload : String → Nat → Except String Unit
  time : String → String

/-- The body of the `transferVideos` loop for one video: fetch details
(a rejection lands in the catch block and records a failure); skip when
no MP4 source; derive the key and skip when it already exists; otherwise
stream with retry, recording a failure entry when retries are exhausted. -/
def processVideo (env : Env) (v : Video) : Option Entry × List Event :=
  match env.detail v.videoId with
  | .error e => (some ⟨v.videoId, v.title, e, env.time v.videoId⟩, [.detailFetch v.videoId])
  | .ok none => (none, [.detailFetch v.videoId])
  | .ok (some _url) =>
    let key := TransferPath.s3Key v
    if checkFileExists (env.head key) then
      (none, [.detailFetch v.videoId, .existsCheck key])
    else
      let r := streamToS3WithRetry (env.upload v.videoId) key 0
      if r.success then
        (none, .detailFetch v.videoId :: .existsCheck key :: r.events)
      else
        (some ⟨v.videoId, v.title, r.error.getD "", env.time v.videoId⟩,
         .detailFetch v.videoId :: .existsCheck key :: r.events)

/-- `transferVideos(videosToProcess)`: sequential loop over the input;
returns the `failedVideos` list it accumulated and the event trace. -/
def transferVideos (env : Env) : List Video → List Entry × List Event
  | [] => ([], [])
  | v :: rest =>
    let hd := processVideo env v
    let tl := transferVideos env rest
    ((match hd.1 with
      | some en => en :: tl.1
      | none => tl.1),
     hd.2 ++ tl.2)

/-- Content of the ledger file when it exists: a well-formed JSON array
of entries, or unparseable bytes. -/
inductive LedgerContent where
  | valid (entries : List Entry)
  | corrupt
deriving DecidableEq, Repr

/-- The ledger file `failed-videos.json`: `none` when the file does not
exist. -/
def LedgerFS : Type := Option LedgerContent

/-- `loadFailedVideos()`: `[]` when the file is absent, `[]` when
`JSON.parse` throws (the catch branch), the parsed entries otherwise. -/
def loadFailedVideos : LedgerFS → List Entry
  | none => []
  | some .corrupt => []
  | some (.valid l) => l

/-- `saveFailedVideos(failedVideos)`: unconditional full overwrite with
the serialized entries. -/
def saveFailedVideos (l : List Entry) (_fs : LedgerFS) : LedgerFS :=
  some (.valid l)

/-- `clearFailedLog()`: delete the file if it exists. -/
def clearFailedLog : LedgerFS → LedgerFS
  | some _ => none
  | none => none

/-- The end-of-run step shared by normal mode and retry mode in `main`:
zero failures clears the ledger, otherwise the failure list is saved. -/
def endOfRun (failed : List Entry) (fs : LedgerFS) : LedgerFS :=
  if failed.length = 0 then clearFailedLog fs else saveFailedVideos failed fs

/-- The retry branch of `main` (`--retry` / `--retry-failed`): load the
ledger; an empty list returns immediately; otherwise rebuild
`{videoId, title}` records, run `transferVideos` over them, and clear or
save depending on what still failed.  Result: the ledger file afterwards
and the event trace. -/
def retryRun (env : Env) (fs : LedgerFS) : LedgerFS × List Event :=
  let failedVideos := loadFailedVideos fs
  if failedVideos.length = 0 then (fs, [])
  else
    let videosToRetry := failedVideos.map (fun e => Video.mk e.videoId e.title)
    let res := transferVideos env videosToRetry
    (endOfRun res.1 fs, res.2)

/-- One element of the `missingVideos` list `verifyTransfer` builds. -/
structure MissingVideo where
  videoId : String
  title : String
  expectedKey : String
deriving DecidableEq, Repr

/-- `verifyTransfer()` after its two listings: `allVideos` is what
`fetchAllVideos` returned and `s3Keys` the key set from `listS3Objects`;
every catalog record whose expected key is not in the set is reported
missing; a nonempty missing set is written to the ledger (with the fixed
error string and a timestamp), an empty one clears the ledger. -/
def verifyTransfer (allVideos : List Video) (s3Keys : List String)
    (time : String → String) (fs : LedgerFS) : List MissingVideo × LedgerFS :=
  let missingVideos := allVideos.filterMap (fun v =>
    let expectedKey := VerifyPath.expectedKey v
    if s3Keys.contains expectedKey then none
    else some ⟨v.videoId, v.title, expectedKey⟩)
  if missingVideos.length > 0 then
    (missingVideos,
     some (.valid (missingVideos.map (fun m =>
       ⟨m.videoId, m.title, "Missing from S3 after verification", time m.videoId⟩))))
  else
    (missingVideos, clearFailedLog fs)

/-- `fetchAllVideos` loop body: request page `currentPage`
(`fetchVideoPage`); a nonempty page is appended and, when it holds
exactly 100 records, the loop continues on the next page; a short or
empty page ends the loop.  `fuel` bounds the number of requests the model
unrolls (`none` = the loop would still be running); the result carries
the accumulated records and the list of requested page numbers. -/
def fetchAllVideosAux (pages : Nat → List Video) :
    Nat → Nat → Option (List Video × List Nat)
  | _, 0 => none
  | currentPage, fuel + 1 =>
    let pageData := pages currentPage
    if pageData.length > 0 then
      if pageData.length = 100 then
        match fetchAllVideosAux pages (currentPage + 1) fuel with
        | none => none
        | some r => some (pageData ++ r.1, currentPage :: r.2)
      else
        some (pageData, [currentPage])
    else
      some ([], [currentPage])

/-- `fetchAllVideos()`: start at page 1. -/
def fetchAllVideos (pages : Nat → List Video) (fuel : Nat) :
    Option (List Video × List Nat) :=
  fetchAllVideosAux pages 1 fuel

/-- `pages lo ++ pages (lo+1) ++ ... ++ pages (lo+n-1)`. -/
def pagesConcat (pages : Nat → List Video) : Nat → Nat → List Video
  | _, 0 => []
  | lo, n + 1 => pages lo ++ pagesConcat pages (lo + 1) n

/-- `[lo, lo+1, ..., lo+n-1]`. -/
def pageRange : Nat → Nat → List Nat
  | _, 0 => []
  | lo, n + 1 => lo :: pageRange (lo + 1) n

/-! Concrete fixtures used by the witnesses. -/

/-- A fixed timestamp oracle. -/
def tsZero : String → String := fun _ => "T0"

/-- An environment whose detail fetches all succeed but report no MP4
source. -/
def envNoSource : Env where
  detail := fun _ => .ok none
  head := fun _ => some ⟨"NotFound"⟩
  upload := fun _ _ => .ok ()
  time := tsZero

/-- An environment where every video has a source, nothing exists in the
store yet, and every upload attempt fails with the same message. -/
def envFail : Env where
  detail := fun _ => .ok (some "https://cdn.example/video.mp4")
  head := fun _ => some ⟨"Forbidden"⟩
  upload := fun _ _ => .error "boom"
  time := tsZero

/-- Catalog record number `n` of the pagination stub. -/
def stubVid (n : Nat) : Video := ⟨"v" ++ toString n, ""⟩

/-- First stub page: 100 records. -/
def stubPage1 : List Video := (List.range 100).map stubVid

/-- Second stub page: 100 records. -/
def stubPage2 : List Video := (List.range 100).map (fun n => stubVid (100 + n))

/-- Third stub page: 37 records. -/
def stubPage3 : List Video := (List.range 37).map (fun n => stubVid (200 + n))

/-- The catalog listing stub with page sizes [100, 100, 37]. -/
def stubPages : Nat → List Video := fun q =>
  if q = 1 then stubPage1 else if q = 2 then stubPage2 else
  if q = 3 then stubPage3 else []

/-! Theorems. -/

/-- The transfer-path key and the verify-path key agree character for
character once the sanitized title parts agree, and the id suffix is the
only remaining difference. Helper for cancelling a shared prefix of a
string concatenation. -/
theorem string_append_cancel_left (a x y : String) (h : a ++ x = a ++ y) : x = y := by
  have hd := congrArg String.data h
  simp only [String.data_append] at hd
  exact String.ext (List.append_cancel_left hd)

/-- Clearing the ledger always leaves no file, whatever was there. -/
theorem clearFailedLog_eq_none (fs : LedgerFS) : clearFailedLog fs = none := by
  cases fs <;> rfl

/-- Claim C1: the sanitize-and-derive computation inside `transferVideos`
and the copy inside `verifyTransfer` are equal as functions, the derived
keys coincide on every record, and key derivation is deterministic (two
records with the same identifier and title get the same key). -/
theorem claim_c1 :
    TransferPath.sanitizeFilename = VerifyPath.sanitizeFilename
  ∧ (∀ v : Video, TransferPath.s3Key v = VerifyPath.expectedKey v)
  ∧ (∀ v w : Video, v.videoId = w.videoId → v.title = w.title →
      TransferPath.s3Key v = TransferPath.s3Key w) := by
  refine ⟨rfl, fun v => rfl, ?_⟩
  intro v w hid ht
  cases v; cases w
  cases hid; cases ht
  rfl

/-- Witness for C1 at a concrete record. -/
theorem claim_c1_witness :
    TransferPath.s3Key ⟨"vidA", "Some Title"⟩ = TransferPath.s3Key ⟨"vidA", "Some Title"⟩ :=
  claim_c1.2.2 ⟨"vidA", "Some Title"⟩ ⟨"vidA", "Some Title"⟩ rfl rfl

/-- Counterexample to claim C2 as stated: the code strips the accented
capital E of "Épisode #1!" entirely (it is outside the allowed class),
so the derived key ends in "pisode 1 - vid123", not "Episode 1 - vid123". -/
theorem claim_c2_counterexample :
    TransferPath.s3Key ⟨"vid123", "Épisode #1!"⟩ = "api-video-backup/pisode 1 - vid123"
  ∧ TransferPath.s3Key ⟨"vid123", "Épisode #1!"⟩ ≠ "api-video-backup/Episode 1 - vid123" := by
  constructor
  · rfl
  · decide

/-- Claim C2 (amended): a nonempty title all of whose characters are
disallowed degrades to the bare identifier (key
`api-video-backup/<id> - <id>`), and "Épisode #1!" with id vid123 derives
the key suffix "pisode 1 - vid123" (the accented character is dropped,
not transliterated). -/
theorem claim_c2 :
    (∀ v : Video, v.title ≠ "" → (∀ c ∈ v.title.data, isAllowedChar c = false) →
      TransferPath.s3Key v = "api-video-backup/" ++ v.videoId ++ " - " ++ v.videoId)
  ∧ TransferPath.s3Key ⟨"vid123", "Épisode #1!"⟩ = "api-video-backup/pisode 1 - vid123" := by
  refine ⟨?_, rfl⟩
  intro v hne hall
  have hfilter : v.title.data.filter isAllowedChar = [] := by
    refine List.filter_eq_nil_iff.mpr ?_
    intro c hc
    simp [hall c hc]
  unfold TransferPath.s3Key TransferPath.safeTitle TransferPath.sanitizeFilename
  rw [if_neg hne, hfilter]
  rfl

/-- Witness for C2 on an all-disallowed title. -/
theorem claim_c2_witness :
    TransferPath.s3Key ⟨"id1", "###"⟩ = "api-video-backup/" ++ "id1" ++ " - " ++ "id1" :=
  claim_c2.1 ⟨"id1", "###"⟩ (by decide) (by decide)

/-- Counterexample to claim C3 as stated: records with distinct
identifiers can still collide, because the sanitized title may itself
contain " - " and absorb part of another record's identifier:
(id "c", title "a - b") and (id "b - c", title "a") derive the same key. -/
theorem claim_c3_counterexample :
    (⟨"c", "a - b"⟩ : Video).videoId ≠ (⟨"b - c", "a"⟩ : Video).videoId
  ∧ TransferPath.s3Key ⟨"c", "a - b"⟩ = TransferPath.s3Key ⟨"b - c", "a"⟩ := by
  constructor
  · decide
  · rfl

/-- Claim C3 (amended): for two records whose titles sanitize to the same
string, distinct identifiers do give distinct keys (the identifier suffix
disambiguates, since the key prefix up to the suffix is then identical). -/
theorem claim_c3 (v w : Video)
    (hs : TransferPath.safeTitle v = TransferPath.safeTitle w)
    (hid : v.videoId ≠ w.videoId) :
    TransferPath.s3Key v ≠ TransferPath.s3Key w := by
  intro h
  apply hid
  unfold TransferPath.s3Key at h
  rw [hs] at h
  have h1 : ("api-video-backup/" ++ TransferPath.safeTitle w ++ " - ") ++ v.videoId
      = ("api-video-backup/" ++ TransferPath.safeTitle w ++ " - ") ++ w.videoId := by
    simpa [String.append_assoc] using h
  exact string_append_cancel_left _ _ _ h1

/-- Witness for C3: same sanitized title, different ids, different keys. -/
theorem claim_c3_witness :
    TransferPath.s3Key ⟨"idA", "Shared"⟩ ≠ TransferPath.s3Key ⟨"idB", "Shared"⟩ :=
  claim_c3 ⟨"idA", "Shared"⟩ ⟨"idB", "Shared"⟩ rfl (by decide)

/-- When every attempt fails, `streamToS3WithRetry` performs attempts
0, 1, 2, 3 with a `RETRY_DELAY` sleep between consecutive attempts and
returns failure carrying the last attempt's error. -/
theorem streamToS3WithRetry_allFail (upload : Nat → Except String Unit) (key : String)
    (err : Nat → String) (hup : ∀ n, upload n = .error (err n)) :
    streamToS3WithRetry upload key 0 =
      { success := false, error := some (err 3),
        events := [.uploadAttempt key 0, .delayed RETRY_DELAY,
                   .uploadAttempt key 1, .delayed RETRY_DELAY,
                   .uploadAttempt key 2, .delayed RETRY_DELAY,
                   .uploadAttempt key 3] } := by
  rw [streamToS3WithRetry.eq_def, hup 0]
  simp only [dif_pos (show 0 < MAX_RETRIES by norm_num [MAX_RETRIES])]
  rw [streamToS3WithRetry.eq_def, hup 1]
  simp only [dif_pos (show 1 < MAX_RETRIES by norm_num [MAX_RETRIES])]
  rw [streamToS3WithRetry.eq_def, hup 2]
  simp only [dif_pos (show 2 < MAX_RETRIES by norm_num [MAX_RETRIES])]
  rw [streamToS3WithRetry.eq_def, hup 3]
  simp only [dif_neg (show ¬ 3 < MAX_RETRIES by norm_num [MAX_RETRIES])]

/-- Claim C4: an item whose upload fails on every attempt is attempted
exactly 4 times (1 + MAX_RETRIES), with a fixed 5000 ms delay between
consecutive attempts; it is then recorded as failed with its identifier,
title, the final attempt's error message and a timestamp, and the loop
continues with the remaining items. -/
theorem claim_c4 (env : Env) (v : Video) (rest : List Video) (url : String)
    (err : Nat → String)
    (hdet : env.detail v.videoId = .ok (some url))
    (hex : checkFileExists (env.head (TransferPath.s3Key v)) = false)
    (hup : ∀ n, env.upload v.videoId n = .error (err n)) :
    transferVideos env (v :: rest) =
      (⟨v.videoId, v.title, err 3, env.time v.videoId⟩ :: (transferVideos env rest).1,
       ([.detailFetch v.videoId, .existsCheck (TransferPath.s3Key v),
         .uploadAttempt (TransferPath.s3Key v) 0, .delayed RETRY_DELAY,
         .uploadAttempt (TransferPath.s3Key v) 1, .delayed RETRY_DELAY,
         .uploadAttempt (TransferPath.s3Key v) 2, .delayed RETRY_DELAY,
         .uploadAttempt (TransferPath.s3Key v) 3] : List Event)
         ++ (transferVideos env rest).2) := by
  simp only [transferVideos, processVideo, hdet, hex, Bool.false_eq_true, if_false,
    streamToS3WithRetry_allFail (env.upload v.videoId) (TransferPath.s3Key v) err hup,
    Option.getD_some]

/-- Witness for C4: two videos, every upload fails; the first is
attempted 4 times, recorded, and the second is still processed. -/
theorem claim_c4_witness :
    transferVideos envFail [⟨"v1", "A"⟩, ⟨"v2", "B"⟩] =
      (⟨"v1", "A", "boom", "T0"⟩ :: (transferVideos envFail [⟨"v2", "B"⟩]).1,
       ([.detailFetch "v1", .existsCheck (TransferPath.s3Key ⟨"v1", "A"⟩),
         .uploadAttempt (TransferPath.s3Key ⟨"v1", "A"⟩) 0, .delayed RETRY_DELAY,
         .uploadAttempt (TransferPath.s3Key ⟨"v1", "A"⟩) 1, .delayed RETRY_DELAY,
         .uploadAttempt (TransferPath.s3Key ⟨"v1", "A"⟩) 2, .delayed RETRY_DELAY,
         .uploadAttempt (TransferPath.s3Key ⟨"v1", "A"⟩) 3] : List Event)
         ++ (transferVideos envFail [⟨"v2", "B"⟩]).2) :=
  claim_c4 envFail ⟨"v1", "A"⟩ [⟨"v2", "B"⟩] "https://cdn.example/video.mp4"
    (fun _ => "boom") rfl rfl (fun _ => rfl)

/-- Behaviour of the pagination loop from an arbitrary starting page:
if every page from `lo` up to (but excluding) `p` is full (exactly 100
records) and page `p` is short, the loop requests exactly pages
`lo..p` and accumulates their records in order. -/
theorem fetchAllVideosAux_spec (pages : Nat → List Video) (fuel : Nat) :
    ∀ lo p : Nat, lo ≤ p →
      (∀ q, lo ≤ q → q < p → (pages q).length = 100) →
      (pages p).length < 100 → p + 1 - lo ≤ fuel →
      fetchAllVideosAux pages lo fuel =
        some (pagesConcat pages lo (p + 1 - lo), pageRange lo (p + 1 - lo)) := by
  induction fuel with
  | zero =>
    intro lo p hlop _ _ hfuel
    omega
  | succ fuel ih =>
    intro lo p hlop hfull hlast hfuel
    rcases Nat.eq_or_lt_of_le hlop with hlo | hlo
    · subst hlo
      have h1 : lo + 1 - lo = 1 := by omega
      rw [h1]
      simp only [fetchAllVideosAux, pagesConcat, pageRange]
      by_cases hz : (pages lo).length > 0
      · have hne : (pages lo).length ≠ 100 := by omega
        simp [hz, hne]
      · have hxz : (pages lo).length = 0 := by omega
        have hnil : pages lo = [] := List.length_eq_zero.mp hxz
        simp [hz, hnil]
    · have hlen : (pages lo).length = 100 := hfull lo (Nat.le_refl lo) hlo
      have hrec := ih (lo + 1) p hlo
        (fun q hq1 hq2 => hfull q (by omega) hq2) hlast (by omega)
      have hstep : p + 1 - lo = (p + 1 - (lo + 1)) + 1 := by omega
      rw [hstep]
      simp only [fetchAllVideosAux, pagesConcat, pageRange, hlen, hrec]
      norm_num

/-- Claim C5: if pages 1..p-1 are full (100 records each) and page p is
the first short (or empty) page, `fetchAllVideos` issues exactly the page
requests 1..p and yields the concatenation of those pages in order; the
loop stops right after the first page with fewer than 100 records. -/
theorem claim_c5 (pages : Nat → List Video) (p fuel : Nat) (hp : 1 ≤ p)
    (hfull : ∀ q, 1 ≤ q → q < p → (pages q).length = 100)
    (hlast : (pages p).length < 100) (hfuel : p ≤ fuel) :
    fetchAllVideos pages fuel = some (pagesConcat pages 1 p, pageRange 1 p) := by
  have h := fetchAllVideosAux_spec pages fuel 1 p hp hfull hlast (by omega)
  have h1 : p + 1 - 1 = p := by omega
  rw [h1] at h
  exact h

/-- Witness for C5: the stub with page sizes [100, 100, 37] is consumed
as exactly the 3 page requests 1, 2, 3 and yields all 237 records in
order. -/
theorem claim_c5_witness :
    fetchAllVideos stubPages 3 = some (stubPage1 ++ stubPage2 ++ stubPage3, [1, 2, 3])
  ∧ (stubPage1 ++ stubPage2 ++ stubPage3).length = 237 := by
  constructor
  · have h := claim_c5 stubPages 3 3 (by omega)
      (by
        intro q h1 h2
        interval_cases q
        · simp [stubPages, stubPage1]
        · simp [stubPages, stubPage2])
      (by simp [stubPages, stubPage3]) (by omega)
    rw [h]
    simp [pagesConcat, pageRange, stubPages]
  · simp [stubPage1, stubPage2, stubPage3]

/-- Claim C6: the existence check is total and error-absorbing — it is a
function that returns `false` on every head error (the well-formed
NotFound response included) and `true` exactly when the head request
succeeded. -/
theorem claim_c6 :
    (∀ e : S3Error, checkFileExists (some e) = false)
  ∧ checkFileExists none = true
  ∧ (∀ r : Option S3Error, checkFileExists r = true ↔ r = none) := by
  have hf : ∀ e : S3Error, checkFileExists (some e) = false := by
    intro e
    unfold checkFileExists
    by_cases h : e.code = "NotFound" <;> simp [h]
  refine ⟨hf, rfl, ?_⟩
  intro r
  cases r with
  | none => simp [checkFileExists]
  | some e => simp [hf e]

/-- Witness for C6: the well-formed NotFound error and an ambiguous error
both come back false. -/
theorem claim_c6_witness :
    checkFileExists (some ⟨"NotFound"⟩) = false
  ∧ checkFileExists (some ⟨"InternalError"⟩) = false :=
  ⟨claim_c6.1 ⟨"NotFound"⟩, claim_c6.1 ⟨"InternalError"⟩⟩

/-- Claim C7: saving a nonempty failure list and loading it back yields
the same sequence of (identifier, title) pairs, and a run ending with
zero failures leaves no ledger file (cleared, never written as an empty
array). -/
theorem claim_c7 :
    (∀ (l : List Entry) (fs : LedgerFS), l ≠ [] →
      (loadFailedVideos (saveFailedVideos l fs)).map (fun e => (e.videoId, e.title))
        = l.map (fun e => (e.videoId, e.title)))
  ∧ (∀ fs : LedgerFS, endOfRun [] fs = none) := by
  constructor
  · intro l fs _
    rfl
  · intro fs
    simp [endOfRun, clearFailedLog_eq_none]

/-- Witness for C7 at a one-entry ledger. -/
theorem claim_c7_witness :
    (loadFailedVideos (saveFailedVideos [⟨"vidA", "T", "err", "T0"⟩] none)).map
        (fun e => (e.videoId, e.title))
      = [(⟨"vidA", "T", "err", "T0"⟩ : Entry)].map (fun e => (e.videoId, e.title)) :=
  claim_c7.1 [⟨"vidA", "T", "err", "T0"⟩] none (by decide)

/-- Claim C8: when the store listing contains the expected key of every
catalog record except exactly one, `verifyTransfer` reports exactly that
record as missing and writes a one-entry ledger identifying it; when
nothing is missing it clears the ledger instead. -/
theorem claim_c8 :
    (∀ (pre post : List Video) (v : Video) (s3Keys : List String)
       (time : String → String) (fs : LedgerFS),
      (∀ w ∈ pre, s3Keys.contains (VerifyPath.expectedKey w) = true) →
      (∀ w ∈ post, s3Keys.contains (VerifyPath.expectedKey w) = true) →
      s3Keys.contains (VerifyPath.expectedKey v) = false →
      verifyTransfer (pre ++ v :: post) s3Keys time fs =
        ([⟨v.videoId, v.title, VerifyPath.expectedKey v⟩],
         some (.valid [⟨v.videoId, v.title, "Missing from S3 after verification",
           time v.videoId⟩])))
  ∧ (∀ (videos : List Video) (s3Keys : List String)
       (time : String → String) (fs : LedgerFS),
      (∀ w ∈ videos, s3Keys.contains (VerifyPath.expectedKey w) = true) →
      verifyTransfer videos s3Keys time fs = ([], none)) := by
  constructor
  · intro pre post v s3Keys time fs hpre hpost hv
    have hprenil : pre.filterMap (fun v =>
        if s3Keys.contains (VerifyPath.expectedKey v) then none
        else some (⟨v.videoId, v.title, VerifyPath.expectedKey v⟩ : MissingVideo)) = [] := by
      refine List.filterMap_eq_nil_iff.mpr ?_
      intro w hw
      simpa using hpre w hw
    have hpostnil : post.filterMap (fun v =>
        if s3Keys.contains (VerifyPath.expectedKey v) then none
        else some (⟨v.videoId, v.title, VerifyPath.expectedKey v⟩ : MissingVideo)) = [] := by
      refine List.filterMap_eq_nil_iff.mpr ?_
      intro w hw
      simpa using hpost w hw
    simp only [verifyTransfer, List.filterMap_append, hprenil, List.filterMap_cons, hv,
      if_false, hpostnil, List.nil_append]
    simp
  · intro videos s3Keys time fs hall
    have hnil : videos.filterMap (fun v =>
        if s3Keys.contains (VerifyPath.expectedKey v) then none
        else some (⟨v.videoId, v.title, VerifyPath.expectedKey v⟩ : MissingVideo)) = [] := by
      refine List.filterMap_eq_nil_iff.mpr ?_
      intro w hw
      simpa using hall w hw
    simp only [verifyTransfer, hnil]
    simp [clearFailedLog_eq_none]

/-- Witness for C8: three records, the middle record's key absent from
the store listing; it is the unique missing report and the unique ledger
entry. -/
theorem claim_c8_witness :
    verifyTransfer [⟨"a", "A"⟩, ⟨"b", "B"⟩, ⟨"c", "C"⟩]
        [VerifyPath.expectedKey ⟨"a", "A"⟩, VerifyPath.expectedKey ⟨"c", "C"⟩] tsZero none =
      ([⟨"b", "B", VerifyPath.expectedKey ⟨"b", "B"⟩⟩],
       some (.valid [⟨"b", "B", "Missing from S3 after verification", tsZero "b"⟩])) :=
  claim_c8.1 [⟨"a", "A"⟩] [⟨"c", "C"⟩] ⟨"b", "B"⟩
    [VerifyPath.expectedKey ⟨"a", "A"⟩, VerifyPath.expectedKey ⟨"c", "C"⟩] tsZero none
    (by decide) (by decide) (by decide)


/-- Counterexample to claim C9 as stated: a no-source item is indeed not
recorded by a transfer run, but a verify pass has no knowledge of source
availability — a catalog record whose expected key is absent from the
store (as every never-transferable item's key is) IS written into the
failure ledger by `verifyTransfer`. -/
theorem claim_c9_counterexample :
    envNoSource.detail "vidX" = .ok none
  ∧ (transferVideos envNoSource [⟨"vidX", "T"⟩]).1 = []
  ∧ (verifyTransfer [⟨"vidX", "T"⟩] [] tsZero none).2 =
      some (.valid [⟨"vidX", "T", "Missing from S3 after verification", "T0"⟩]) :=
  ⟨rfl, rfl, rfl⟩

/-- Claim C9 (amended): on the transfer path (normal and retry mode), an
item whose detail fetch reports no source URL is skipped as terminal: it
contributes no failure entry and no existence check, upload attempt or
retry delay — only its detail fetch appears in the trace.  A verify pass,
however, reports any record whose expected key is absent from the store,
no-source items included. -/
theorem claim_c9 (env : Env) (v : Video) (rest : List Video)
    (h : env.detail v.videoId = .ok none) :
    transferVideos env (v :: rest) =
      ((transferVideos env rest).1,
       .detailFetch v.videoId :: (transferVideos env rest).2) := by
  simp only [transferVideos, processVideo, h, List.singleton_append]

/-- Witness for C9: one no-source item, nothing recorded, only the detail
fetch observed. -/
theorem claim_c9_witness :
    transferVideos envNoSource [⟨"vidX", "T"⟩] = ([], [.detailFetch "vidX"]) :=
  claim_c9 envNoSource ⟨"vidX", "T"⟩ [] rfl

/-- Claim C10: a retry-mode invocation whose ledger file is absent,
unreadable, or holds an empty list returns before doing anything: no
detail fetch, no existence check, no upload attempt (empty event trace),
and the ledger file is left exactly as it was. -/
theorem claim_c10 (env : Env) (fs : LedgerFS)
    (h : fs = none ∨ fs = some .corrupt ∨ fs = some (.valid [])) :
    retryRun env fs = (fs, []) := by
  rcases h with h | h | h <;> subst h <;> rfl

/-- Witness for C10 with an absent ledger file. -/
theorem claim_c10_witness : retryRun envNoSource none = (none, []) :=
  claim_c10 envNoSource none (Or.inl rfl)
